import Mathlib

/-!
Shallow embedding of `minvandforsyning_companion/app.py` (the adaptive
polling scheduler and the reading-reconciliation state machine).

Conventions of the embedding:
* Python `float` meter readings and tolerances are modelled as `ℚ`; all
  comparisons performed by the source on the concrete values appearing in
  the claims are far from the double-precision rounding granularity, so
  the accept/reject decisions agree with the rational model.
* Python `None` becomes `Option.none`; Python truthiness of strings
  (`"" ` is falsy) is modelled explicitly by `pyOr` / `truthyStr`.
* The wall-clock source `_utc_now_iso()` / `time.time()` is passed in as
  an explicit parameter (`now`, `now_epoch`), and the random jitter draw
  of `random.randint` is an explicit parameter constrained by the
  hypotheses of the theorems that use it.
* Persistence (`save_last_good`) is a fire-and-forget side effect in the
  source ("Never crash because of persistence") and has no influence on
  the in-memory state, so it is dropped from the state transition.
-/

namespace MinVand

/-- Python `a or b` on optional strings: `None` and `""` are falsy. -/
def pyOr (a b : Option String) : Option String :=
match a with
| none => b
| some s => if s = "" then b else some s

/-- Python truthiness of an optional string. -/
def truthyStr (a : Option String) : Bool :=
match a with
| none => false
| some s => decide (s ≠ "")

/-- Python `int(q)` on a float/rational: truncation toward zero. -/
def ratTrunc (q : ℚ) : Int := Int.tdiv q.num (q.den : Int)

/-- The durable record `LAST_GOOD` (`/data/last_good.json`):
`{"reading_m3": ..., "read_at_iso": ..., "updated_utc": ...}`. -/
structure LastGood where
  reading_m3 : Option ℚ
  read_at_iso : Option String
  updated_utc : Option String
deriving DecidableEq

/-- The dict returned by `scrape_once` (and consumed by
`_apply_result_to_state` as `result`). -/
structure ScrapeResult where
  ok : Bool
  error : Option String
  reading_m3 : Option ℚ
  read_at_iso : Option String
  scraped_at_utc : String
  raw : Option String
deriving DecidableEq

/-- The in-memory `STATE` dict exposed over `/state` and `/state_raw`. -/
structure State where
  ok : Bool
  error : Option String
  reading_m3 : Option ℚ
  read_at_iso : Option String
  scraped_at_utc : Option String
  raw : Option String
  stale : Bool
  mode : String
  next_poll_in_seconds : Option Int
  last_success_utc : Option String
  fail_count : Int
deriving DecidableEq

/-- The literal initial value of `STATE` (app.py lines 84-96). -/
def initSTATE : State :=
  { ok := false
    error := some ("Not scraped yet")
    reading_m3 := none
    read_at_iso := none
    scraped_at_utc := none
    raw := none
    stale := true
    mode := ("idle")
    next_poll_in_seconds := none
    last_success_utc := none
    fail_count := 0 }

/-- `load_last_good()`: the parsed content of the persisted file (or `none`
when the file is absent/unreadable, in which case `_read_json` yields `{}`);
a record without a `reading_m3` is replaced by the empty record. -/
def load_last_good (file : Option LastGood) : LastGood :=
match file with
| some d => if d.reading_m3 ≠ none then d else ⟨none, none, none⟩
| none => ⟨none, none, none⟩

/-- `_update_last_good(new_reading, new_read_at_iso, allow_decrease,
decrease_tolerance_m3)` (app.py lines 162-197), with the global `LAST_GOOD`
passed and returned explicitly together with the `bool` result.
`save_last_good` is a non-failing side effect and is dropped. -/
def update_last_good (lg : LastGood) (new_reading : Option ℚ)
    (new_read_at_iso : Option String) (allow_decrease : Bool)
    (decrease_tolerance_m3 : ℚ) (now : String) : LastGood × Bool :=
match new_reading with
| none => (lg, false)
| some v =>
  match lg.reading_m3 with
  | none => (⟨some v, new_read_at_iso, some now⟩, true)
  | some old =>
    if allow_decrease = true ∨ old - decrease_tolerance_m3 ≤ v then
      (⟨some (max v old), pyOr new_read_at_iso lg.read_at_iso, some now⟩, true)
    else
      (lg, false)

/-- `_apply_result_to_state(result, error, keep_last_on_error,
allow_decrease, decrease_tolerance_m3)` (app.py lines 200-241), with the
globals `LAST_GOOD` and `STATE` passed and returned explicitly.  In the
success branch `STATE.update(result)` is followed by the explicit
overrides of `stale`, `ok`, `reading_m3`, `read_at_iso` and `error`;
`mode`, `next_poll_in_seconds`, `last_success_utc` and `fail_count` are
not keys of `result`, so they survive the `update`. -/
def apply_result_to_state (lg : LastGood) (st : State)
    (result : Option ScrapeResult) (error : Option String)
    (keep_last_on_error allow_decrease : Bool)
    (decrease_tolerance_m3 : ℚ) (now : String) : LastGood × State :=
  let failBranch : LastGood × State :=
    let errVal := pyOr error
      (match result with
       | some r => r.error
       | none => some ("Unknown error"))
    let stBase : State :=
      { st with
        fail_count := st.fail_count + 1
        scraped_at_utc := some now
        error := errVal
        raw := none
        stale := true }
    if keep_last_on_error = true ∧ lg.reading_m3 ≠ none then
      (lg, { stBase with
              ok := true
              reading_m3 := lg.reading_m3
              read_at_iso := lg.read_at_iso })
    else
      (lg, { stBase with
              ok := false
              reading_m3 := none
              read_at_iso := none })
  match result with
  | some r =>
    if r.ok = true then
      let ul := update_last_good lg r.reading_m3 r.read_at_iso
                  allow_decrease decrease_tolerance_m3 now
      let st1 := if ul.2 = true then
          { st with last_success_utc := some now, fail_count := 0 }
        else st
      (ul.1,
       { st1 with
         scraped_at_utc := some r.scraped_at_utc
         raw := r.raw
         stale := false
         ok := ul.1.reading_m3.isSome
         reading_m3 := ul.1.reading_m3
         read_at_iso := ul.1.read_at_iso
         error := none })
    else failBranch
  | none => failBranch

/-- `_compute_sleep_seconds(mode, idle_poll_seconds, probe_poll_seconds,
min_poll_seconds, jitter_seconds, fail_count)` (app.py lines 251-267).
The random draw `random.randint(0, max(0, int(jitter_seconds)))` is the
explicit parameter `jitter_draw`; theorems about the function constrain it
to `[0, max 0 jitter_seconds]` exactly as `randint` does. -/
def compute_sleep_seconds (mode : String)
    (idle_poll_seconds probe_poll_seconds min_poll_seconds
     jitter_seconds fail_count jitter_draw : Int) : Int :=
  let base0 : Int := if mode = "idle" then idle_poll_seconds else probe_poll_seconds
  let base1 : Int :=
    if fail_count > 0 then
      min (ratTrunc ((base0 : ℚ) * min 4 (1 + (fail_count : ℚ) / 2))) 900
    else base0
  let base2 : Int := max base1 min_poll_seconds
  base2 + jitter_draw

/-- Case folding used for the `re.IGNORECASE` matching of the literals
`aflæst til:`, `kl.` and `d.` (ASCII letters plus `Æ`). -/
def lowerDa (c : Char) : Char := if c = 'Æ' then 'æ' else c.toLower

/-- Match a literal pattern case-insensitively at the head of the input,
returning the rest of the input on success. -/
def matchLitCI : List Char → List Char → Option (List Char)
| [], rest => some rest
| _ :: _, [] => none
| p :: ps, c :: cs => if lowerDa c = lowerDa p then matchLitCI ps cs else none

/-- Single pass collapsing whitespace runs into single spaces and
stripping both ends; `started` records whether a word has been emitted
and `pending` whether a separating space is owed before the next word. -/
def nwAux : Bool → Bool → List Char → List Char
| _, _, [] => []
| started, pending, c :: cs =>
  if c.isWhitespace then nwAux started started cs
  else if pending then ' ' :: c :: nwAux true false cs
  else c :: nwAux true false cs

/-- `re.sub(r"\s+", " ", txt).strip()`: collapse whitespace runs into
single spaces and strip the ends. -/
def normalizeWS (s : String) : String := String.mk (nwAux false false s.data)

/-- Decimal digits to a natural number. -/
def digitsToNat (l : List Char) : Nat :=
  l.foldl (fun n c => 10 * n + (c.toNat - 48)) 0

/-- Attempt the value pattern `aflæst til:\s*([0-9]+,[0-9]+)` at the head
of the input, returning the integer and fraction digit groups. -/
def matchValueAt (l : List Char) : Option (List Char × List Char) :=
match matchLitCI (("aflæst til:").toList) l with
| none => none
| some r1 =>
  let r2 := r1.dropWhile Char.isWhitespace
  let d1 := r2.takeWhile Char.isDigit
  let r3 := r2.dropWhile Char.isDigit
  if d1 = [] then none else
  match r3 with
  | ',' :: r4 =>
    let d2 := r4.takeWhile Char.isDigit
    if d2 = [] then none else some (d1, d2)
  | _ => none

/-- Leftmost (`re.search`) occurrence of the value pattern. -/
def searchValue : List Char → Option (List Char × List Char)
| [] => none
| c :: cs =>
  match matchValueAt (c :: cs) with
  | some v => some v
  | none => searchValue cs

/-- Greedy-with-backtracking match of `[0-9]{1,2}\.`, returning the hour
digits and the rest. -/
def matchHHDot : List Char → Option (List Char × List Char)
| a :: b :: rest =>
  if a.isDigit then
    if b.isDigit then
      match rest with
      | '.' :: r => some ([a, b], r)
      | _ => none
    else if b = '.' then some ([a], rest)
    else none
  else none
| _ => none

/-- Match exactly two digits. -/
def take2Digits : List Char → Option (Char × Char × List Char)
| a :: b :: rest => if a.isDigit && b.isDigit then some (a, b, rest) else none
| _ => none

/-- Match exactly four digits. -/
def take4Digits : List Char → Option (List Char × List Char)
| a :: b :: c :: d :: rest =>
  if a.isDigit && b.isDigit && c.isDigit && d.isDigit then
    some ([a, b, c, d], rest)
  else none
| _ => none

/-- The captured groups of the time pattern
`kl\.\s*([0-9]{1,2}\.[0-9]{2}),\s*d\.\s*([0-9]{2}\.[0-9]{2}\.[0-9]{4})`. -/
structure TimeMatch where
  hh : List Char
  mm : List Char
  day : List Char
  month : List Char
  year : List Char
deriving DecidableEq

/-- Attempt the time pattern at the head of the input. -/
def matchTimeAt (l : List Char) : Option TimeMatch :=
match matchLitCI (("kl.").toList) l with
| none => none
| some r1 =>
  match matchHHDot (r1.dropWhile Char.isWhitespace) with
  | none => none
  | some (hh, r2) =>
    match take2Digits r2 with
    | none => none
    | some (m1, m2, r3) =>
      match r3 with
      | ',' :: r4 =>
        match matchLitCI (("d.").toList) (r4.dropWhile Char.isWhitespace) with
        | none => none
        | some r5 =>
          match take2Digits (r5.dropWhile Char.isWhitespace) with
          | none => none
          | some (d1, d2, r7) =>
            match r7 with
            | '.' :: r8 =>
              match take2Digits r8 with
              | none => none
              | some (mo1, mo2, r9) =>
                match r9 with
                | '.' :: r10 =>
                  match take4Digits r10 with
                  | none => none
                  | some (y, _) => some ⟨hh, [m1, m2], [d1, d2], [mo1, mo2], y⟩
                | _ => none
            | _ => none
      | _ => none

/-- Leftmost (`re.search`) occurrence of the time pattern. -/
def searchTime : List Char → Option TimeMatch
| [] => none
| c :: cs =>
  match matchTimeAt (c :: cs) with
  | some t => some t
  | none => searchTime cs

/-- `float(m_val.group(1).replace(",", "."))` for a `digits,digits`
group. -/
def valueOfGroups (d1 d2 : List Char) : ℚ :=
  (digitsToNat d1 : ℚ) + (digitsToNat d2 : ℚ) / ((10 : ℚ) ^ d2.length)

/-- The ISO formatting `f"{year}-{month}-{day}T{hhmm}:00"` of
`parse_dom_text`, with `hhmm = m_time.group(1).replace(".", ":")`. -/
def formatReadAt (t : TimeMatch) : String :=
  String.mk t.year ++ "-" ++ String.mk t.month ++ "-" ++ String.mk t.day ++
    "T" ++ String.mk t.hh ++ ":" ++ String.mk t.mm ++ ":00"

/-- `parse_dom_text(txt)` (app.py lines 99-121): returns
`(reading_m3, read_at_iso, raw)`. -/
def parse_dom_text (txt : String) : Option ℚ × Option String × String :=
  let raw := normalizeWS txt
  let reading : Option ℚ :=
    match searchValue raw.toList with
    | some (d1, d2) => some (valueOfGroups d1 d2)
    | none => none
  let read_at : Option String :=
    match searchTime raw.toList with
    | some t => some (formatReadAt t)
    | none => none
  (reading, read_at, raw)

/-- The result dict built by `scrape_once` from a non-empty DOM text
(app.py lines 149-159): always `ok = True`, even when the text did not
match the value pattern and `reading_m3` is therefore `None`. -/
def mk_scrape_result (txt : String) (scraped_at_utc : String) : ScrapeResult :=
  let p := parse_dom_text txt
  { ok := true
    error := none
    reading_m3 := p.1
    read_at_iso := p.2.1
    scraped_at_utc := scraped_at_utc
    raw := some p.2.2 }

/-- The result of one scrape attempt in `poll_loop`: either the dict from
`scrape_once` or the string of the raised exception. -/
inductive Outcome where
| ok (r : ScrapeResult)
| err (e : String)
deriving DecidableEq

/-- The per-cycle inputs of one iteration of `poll_loop`: the scrape
outcome, the options read by `load_options()` that reach the
reconciliation step, and the two clock samples. -/
structure CycleIn where
  outcome : Outcome
  keep_last_on_error : Bool
  allow_decrease : Bool
  decrease_tolerance_m3 : ℚ
  now_iso : String
  now_epoch : ℚ
deriving DecidableEq

/-- The loop-local variables of `poll_loop` together with the globals it
mutates. -/
structure LoopState where
  lg : LastGood
  st : State
  last_seen_read_at : Option String
  last_change_utc : Option ℚ
  probe_started_utc : Option ℚ
deriving DecidableEq

/-- The change detection of `poll_loop` (app.py lines 295-304), returning
`(changed, last_seen_read_at)`. -/
def detect_change (last_seen new_read_at : Option String)
    (new_val : Option ℚ) : Bool × Option String :=
  if truthyStr new_read_at = true ∧ new_read_at ≠ last_seen then
    (true, new_read_at)
  else if last_seen = none ∧ new_val ≠ none then
    (true, new_read_at)
  else
    (false, last_seen)

/-- One iteration of the body of `poll_loop` up to (and excluding) the mode
and sleep computation (app.py lines 291-311): scrape outcome applied to
the state, then change detection on success; an exception skips change
detection. -/
def poll_step (s : LoopState) (c : CycleIn) : LoopState :=
match c.outcome with
| .ok r =>
  let p := apply_result_to_state s.lg s.st (some r) none
             c.keep_last_on_error c.allow_decrease c.decrease_tolerance_m3 c.now_iso
  let d := detect_change s.last_seen_read_at p.2.read_at_iso p.2.reading_m3
  if d.1 = true then
    ⟨p.1, p.2, d.2, some c.now_epoch, none⟩
  else
    ⟨p.1, p.2, d.2, s.last_change_utc, s.probe_started_utc⟩
| .err e =>
  let p := apply_result_to_state s.lg s.st none (some e)
             c.keep_last_on_error c.allow_decrease c.decrease_tolerance_m3 c.now_iso
  ⟨p.1, p.2, s.last_seen_read_at, s.last_change_utc, s.probe_started_utc⟩

/-- A whole run of `poll_loop` over a finite list of cycle inputs. -/
def run_cycles (s : LoopState) (l : List CycleIn) : LoopState :=
  l.foldl poll_step s

/-- The `/state` endpoint (app.py lines 340-344): HTTP 503 with the state
as detail when `LAST_GOOD["reading_m3"]` is `None`, the state otherwise. -/
inductive HttpResp where
| ok (s : State)
| error503 (s : State)
deriving DecidableEq

/-- `get_state()` of the FastAPI app. -/
def get_state (lg : LastGood) (st : State) : HttpResp :=
  if lg.reading_m3 = none then .error503 st else .ok st

/-- Ordering on the accepted reading across a transition: once present it
stays present and never decreases (`none` may evolve arbitrarily). -/
def ReadingLE (o n : Option ℚ) : Prop :=
match o with
| none => True
| some a => ∃ b, n = some b ∧ a ≤ b

/-- A persisted last-good record with reading 442.675, as in the startup
recovery scenario. -/
def persisted442 : LastGood :=
  ⟨some (442675 / 1000 : ℚ), some ("2026-01-10T9:30:00"), some ("2026-01-10T10:00:00Z")⟩

/-- A last-good record holding 100.000 with populated timestamps. -/
def lg100 : LastGood := ⟨some 100, some ("2024-02-01T9:30:00"), some ("u0")⟩

/-- A `STATE` with three accumulated consecutive failures. -/
def st3 : State := { initSTATE with fail_count := 3 }

/-- A DOM text in which the time pattern matches but the value pattern
does not (no colon after `aflæst til`): a parse failure for the reading. -/
def badTxt : String := "Din måler er aflæst til 123,45 kl. 9.30, d. 01.02.2024"

/-- A successful scrape result carrying reading 10 and no meter-side
timestamp. -/
def r10 : ScrapeResult := ⟨true, none, some 10, none, ("sa"), some ("raw")⟩

/-- A successful scrape result carrying reading 50 (a large decrease) and
no meter-side timestamp. -/
def rRej : ScrapeResult := ⟨true, none, some 50, none, ("sa"), none⟩

/-- The loop state at a fresh start with no persisted record. -/
def s0 : LoopState := ⟨⟨none, none, none⟩, initSTATE, none, none, none⟩

/-- The `STATE` after the first successful cycle delivering `r10` at
wall-clock `n1`. -/
def stA : State :=
  ⟨true, none, some 10, none, some ("sa"), some ("raw"), false, ("idle"), none,
    some ("n1"), 0⟩

/-- First cycle input delivering `r10` at epoch time 1. -/
def cyc1 : CycleIn := ⟨.ok r10, true, false, 5 / 10000, ("n1"), 1⟩

/-- Second, identical cycle input delivering `r10` again at epoch time 2. -/
def cyc2 : CycleIn := ⟨.ok r10, true, false, 5 / 10000, ("n2"), 2⟩

/-- A loop state whose last-good reading is 5. -/
def sEx : LoopState := ⟨⟨some 5, none, none⟩, initSTATE, none, none, none⟩

/-- A cycle input whose observation (reading 1) is far below 5. -/
def cycLow : CycleIn :=
  ⟨.ok ⟨true, none, some 1, none, ("sa"), none⟩, true, false, 5 / 10000, ("n"), 3⟩

/-- A cycle input whose scrape raised an exception. -/
def cycErr : CycleIn := ⟨.err ("boom"), true, false, 5 / 10000, ("n"), 3⟩

end MinVand

namespace MinVand

/-! Helper lemmas shared by the claim theorems. -/

theorem readingLE_refl (o : Option ℚ) : ReadingLE o o := by
  cases o with
  | none => trivial
  | some a => exact ⟨a, rfl, le_refl a⟩

theorem readingLE_trans {a b c : Option ℚ} (h1 : ReadingLE a b) (h2 : ReadingLE b c) :
    ReadingLE a c := by
  cases a with
  | none => trivial
  | some x =>
    obtain ⟨y, hb, hxy⟩ := h1
    subst hb
    obtain ⟨z, hc, hyz⟩ := h2
    exact ⟨z, hc, le_trans hxy hyz⟩

theorem update_last_good_mono (lg : LastGood) (nr : Option ℚ) (ra : Option String)
    (tol : ℚ) (now : String) :
    ReadingLE lg.reading_m3 ((update_last_good lg nr ra false tol now).1).reading_m3 := by
  cases nr with
  | none => exact readingLE_refl _
  | some v =>
    cases h : lg.reading_m3 with
    | none => simp [update_last_good, h, ReadingLE]
    | some old =>
      simp only [update_last_good, h]
      split
      · exact ⟨max v old, rfl, le_max_right v old⟩
      · rw [h]; exact readingLE_refl _

theorem apply_result_fail_lg (lg : LastGood) (st : State) (err : Option String)
    (k a : Bool) (tol : ℚ) (now : String) :
    (apply_result_to_state lg st none err k a tol now).1 = lg := by
  simp only [apply_result_to_state]
  split <;> rfl

theorem apply_result_ok_lg (lg : LastGood) (st : State) (r : ScrapeResult)
    (err : Option String) (k a : Bool) (tol : ℚ) (now : String) (hok : r.ok = true) :
    (apply_result_to_state lg st (some r) err k a tol now).1 =
      (update_last_good lg r.reading_m3 r.read_at_iso a tol now).1 := by
  simp only [apply_result_to_state, hok, if_pos]

theorem apply_result_notok_lg (lg : LastGood) (st : State) (r : ScrapeResult)
    (err : Option String) (k a : Bool) (tol : ℚ) (now : String) (hok : r.ok = false) :
    (apply_result_to_state lg st (some r) err k a tol now).1 = lg := by
  simp only [apply_result_to_state]
  rw [if_neg (by simp [hok])]
  split <;> rfl

theorem poll_step_lg_mono (s : LoopState) (c : CycleIn) (h : c.allow_decrease = false) :
    ReadingLE s.lg.reading_m3 (poll_step s c).lg.reading_m3 := by
  cases hc : c.outcome with
  | ok r =>
    by_cases hok : r.ok = true
    · have h1 : (poll_step s c).lg =
        (update_last_good s.lg r.reading_m3 r.read_at_iso c.allow_decrease
          c.decrease_tolerance_m3 c.now_iso).1 := by
        simp only [poll_step, hc]
        split <;> simp [apply_result_ok_lg _ _ _ _ _ _ _ _ hok]
      rw [h1, h]
      exact update_last_good_mono _ _ _ _ _
    · have h1 : (poll_step s c).lg = s.lg := by
        simp only [poll_step, hc]
        split <;>
          simp [apply_result_notok_lg _ _ _ _ _ _ _ _ (by simpa using hok)]
      rw [h1]
      exact readingLE_refl _
  | err e =>
    have h1 : (poll_step s c).lg = s.lg := by
      simp only [poll_step, hc, apply_result_fail_lg]
    rw [h1]
    exact readingLE_refl _

theorem run_cycles_mono (l : List CycleIn) :
    ∀ (s : LoopState), (∀ c ∈ l, c.allow_decrease = false) →
      ReadingLE s.lg.reading_m3 (run_cycles s l).lg.reading_m3 := by
  induction l with
  | nil => intro s _; exact readingLE_refl _
  | cons c cs ih =>
    intro s hall
    have hc : c.allow_decrease = false := hall c (by simp)
    have hstep := poll_step_lg_mono s c hc
    have hrest := ih (poll_step s c) (fun d hd => hall d (by simp [hd]))
    exact readingLE_trans hstep hrest

/-- Claim C1: over any sequence of cycles all run with
`allow_decrease = false`, the accepted reading `LAST_GOOD["reading_m3"]`
is non-decreasing and, once set, never erased; an observation more than
`decrease_tolerance_m3` below the current value is rejected with
`LAST_GOOD` unchanged; and a failed cycle never touches `LAST_GOOD`. -/
theorem c1_lastgood_monotone :
    (∀ (s : LoopState) (l : List CycleIn),
        (∀ c ∈ l, c.allow_decrease = false) →
        ReadingLE s.lg.reading_m3 (run_cycles s l).lg.reading_m3) ∧
    (∀ (lg : LastGood) (v : ℚ) (ra : Option String) (tol : ℚ) (now : String) (old : ℚ),
        lg.reading_m3 = some old → v < old - tol →
        update_last_good lg (some v) ra false tol now = (lg, false)) ∧
    (∀ (s : LoopState) (c : CycleIn) (e : String),
        c.outcome = .err e → (poll_step s c).lg = s.lg) := by
  refine ⟨fun s l h => run_cycles_mono l s h, ?_, ?_⟩
  · intro lg v ra tol now old hlg hv
    simp only [update_last_good, hlg]
    rw [if_neg]
    push_neg
    exact ⟨by simp, hv⟩
  · intro s c e hc
    simp only [poll_step, hc, apply_result_fail_lg]

/-- Witness for C1 at concrete inputs: a run consisting of one cycle whose
observation (reading 1) is far below the stored reading 5, the rejection
of that observation by `update_last_good`, and a failed cycle leaving the
record untouched. -/
theorem c1_lastgood_monotone_witness :
    ReadingLE sEx.lg.reading_m3 (run_cycles sEx [cycLow]).lg.reading_m3 ∧
    update_last_good ⟨some 5, none, none⟩ (some 1) none false 1 ("n") =
      (⟨some 5, none, none⟩, false) ∧
    (poll_step sEx cycErr).lg = sEx.lg :=
  ⟨c1_lastgood_monotone.1 sEx [cycLow] (by decide),
   c1_lastgood_monotone.2.1 ⟨some 5, none, none⟩ 1 none 1 ("n") 5 rfl (by norm_num),
   c1_lastgood_monotone.2.2 sEx cycErr ("boom") rfl⟩

/-- Claim C2 (code bug evaluation): with `allow_decrease = true` and
`LAST_GOOD["reading_m3"] = 100.0`, an observation of `50.0` is accepted
(`True` is returned) but the stored reading stays `100.0`
(`max(50.0, 100.0)`), not `50.0` as the spec states: the `clamped = max`
line applies even in the `allow_decrease` branch, so the option never
lets the stored reading decrease. -/
theorem c2_allow_decrease_code_evaluation :
    update_last_good ⟨some 100, none, none⟩ (some 50) none true (5 / 10000) ("now") =
      (⟨some 100, none, some ("now")⟩, true) ∧
    ((update_last_good ⟨some 100, none, none⟩ (some 50) none true (5 / 10000)
        ("now")).1).reading_m3 ≠ some 50 := by
  decide

/-- Claim C3: with `allow_decrease = false` and a present stored reading
`old`, a new reading `v` is accepted iff `old - tol ≤ v`; on acceptance
the stored value is `max v old`; on rejection the record is unchanged.
Concretely, with stored 100.000 and tolerance 0.0005, an observation of
99.9996 is accepted and the stored value stays 100.000, while 99.9994 is
rejected and the record is unchanged. -/
theorem c3_tolerance_boundary :
    (∀ (lg : LastGood) (v : ℚ) (ra : Option String) (tol : ℚ) (now : String) (old : ℚ),
        lg.reading_m3 = some old →
        (((update_last_good lg (some v) ra false tol now).2 = true) ↔ old - tol ≤ v) ∧
        (old - tol ≤ v →
          ((update_last_good lg (some v) ra false tol now).1).reading_m3 =
            some (max v old)) ∧
        (v < old - tol → update_last_good lg (some v) ra false tol now = (lg, false))) ∧
    ((update_last_good lg100 (some (999996 / 10000)) none false (5 / 10000) ("n")).2 = true ∧
      ((update_last_good lg100 (some (999996 / 10000)) none false (5 / 10000)
          ("n")).1).reading_m3 = some 100) ∧
    update_last_good lg100 (some (999994 / 10000)) none false (5 / 10000) ("n") =
      (lg100, false) := by
  refine ⟨?_, by norm_num [update_last_good, lg100, max_def], by norm_num [update_last_good, lg100]⟩
  intro lg v ra tol now old hlg
  by_cases hc : old - tol ≤ v
  · simp [update_last_good, hlg, hc]
  · constructor
    · simp only [update_last_good, hlg]
      rw [if_neg (by push_neg; exact ⟨by simp, not_le.mp hc⟩)]
      simpa using hc
    · refine ⟨fun h => absurd h hc, fun hv => ?_⟩
      simp only [update_last_good, hlg]
      rw [if_neg (by push_neg; exact ⟨by simp, hv⟩)]

/-- Witness for C3 at concrete inputs (stored reading 2, tolerance 1,
observation 3). -/
theorem c3_tolerance_boundary_witness :
    (((update_last_good ⟨some 2, none, none⟩ (some 3) none false 1 ("n")).2 = true) ↔
      (2 : ℚ) - 1 ≤ 3) ∧
    ((2 : ℚ) - 1 ≤ 3 →
      ((update_last_good ⟨some 2, none, none⟩ (some 3) none false 1 ("n")).1).reading_m3 =
        some (max 3 2)) ∧
    ((3 : ℚ) < 2 - 1 →
      update_last_good ⟨some 2, none, none⟩ (some 3) none false 1 ("n") =
        (⟨some 2, none, none⟩, false)) :=
  c3_tolerance_boundary.1 ⟨some 2, none, none⟩ 3 none 1 ("n") 2 rfl

/-- Claim C4 counterexample: after a restart with a persisted last-good
reading of 442.675 the record is loaded into `LAST_GOOD`, but the
in-memory `STATE` is the unconditional literal with `ok = False` and
`reading_m3 = None`, contradicting the claim that `STATE["ok"]` is true
and `STATE["reading_m3"] = 442.675` before any cycle completes. -/
theorem c4_startup_counterexample :
    load_last_good (some persisted442) = persisted442 ∧
    initSTATE.ok = false ∧ initSTATE.reading_m3 = none := by
  refine ⟨by simp [load_last_good, persisted442], rfl, rfl⟩

/-- Claim C4 amended: after a restart with a persisted reading of 442.675,
`LAST_GOOD` holds 442.675 and the `/state` endpoint does not return 503,
but the exposed `STATE` has `ok = False` and `reading_m3 = None` until
the first cycle completes; the first completed cycle — even a failed one,
given `keep_last_on_error = true` — makes `STATE` report `ok = True` and
reading 442.675. -/
theorem c4_startup_recovery_amended :
    (load_last_good (some persisted442)).reading_m3 = some (442675 / 1000 : ℚ) ∧
    get_state (load_last_good (some persisted442)) initSTATE = .ok initSTATE ∧
    initSTATE.ok = false ∧ initSTATE.reading_m3 = none ∧
    (apply_result_to_state (load_last_good (some persisted442)) initSTATE none
        (some ("boom")) true false (5 / 10000) ("now")).2.ok = true ∧
    (apply_result_to_state (load_last_good (some persisted442)) initSTATE none
        (some ("boom")) true false (5 / 10000) ("now")).2.reading_m3 =
      some (442675 / 1000 : ℚ) := by
  simp [load_last_good, persisted442, get_state, apply_result_to_state, initSTATE]

/-- Claim C5 counterexample: a DOM text in which the value pattern does
not match (`parse_dom_text` returns `None` for the reading) still yields
an `ok = True` scrape result, and applying it to a state with
`fail_count = 3` leaves `fail_count` at 3 (not 4) and sets `error` to
`None` (no parse error is recorded), contradicting the claim that a parse
failure is treated as an ordinary cycle failure. -/
theorem c5_parse_failure_counterexample :
    (parse_dom_text badTxt).1 = none ∧
    (apply_result_to_state ⟨some 100, none, none⟩ st3
        (some (mk_scrape_result badTxt ("sa"))) none true false (5 / 10000)
        ("now")).2.fail_count = 3 ∧
    (apply_result_to_state ⟨some 100, none, none⟩ st3
        (some (mk_scrape_result badTxt ("sa"))) none true false (5 / 10000)
        ("now")).2.error = none := by
  refine ⟨by decide, ?_, ?_⟩ <;>
    simp [apply_result_to_state, mk_scrape_result, update_last_good,
      show (parse_dom_text badTxt).1 = none by decide, st3, initSTATE]

/-- Claim C5 amended: a cycle whose raw text does not match the expected
reading pattern produces a `Success` result with an absent reading;
`_apply_result_to_state` then treats it as a successful cycle with no
accepted value — `LAST_GOOD` is unchanged, `fail_count` is NOT
incremented, `error` is cleared to `None` and `stale` is set to false.
Only an exception raised during scraping follows the failure path. -/
theorem c5_parse_failure_amended :
    ∀ (txt sa : String) (lg : LastGood) (st : State) (k a : Bool) (tol : ℚ)
      (now : String),
      (parse_dom_text txt).1 = none →
      (apply_result_to_state lg st (some (mk_scrape_result txt sa)) none k a tol
          now).1 = lg ∧
      (apply_result_to_state lg st (some (mk_scrape_result txt sa)) none k a tol
          now).2.fail_count = st.fail_count ∧
      (apply_result_to_state lg st (some (mk_scrape_result txt sa)) none k a tol
          now).2.error = none ∧
      (apply_result_to_state lg st (some (mk_scrape_result txt sa)) none k a tol
          now).2.stale = false := by
  intro txt sa lg st k a tol now h
  have hrd : (mk_scrape_result txt sa).reading_m3 = none := h
  have hupd : update_last_good lg (mk_scrape_result txt sa).reading_m3
      (mk_scrape_result txt sa).read_at_iso a tol now = (lg, false) := by
    rw [hrd]; rfl
  simp [apply_result_to_state, mk_scrape_result, hupd, update_last_good, h]

/-- Witness for the amended C5 at the concrete non-matching text. -/
theorem c5_parse_failure_amended_witness :
    (apply_result_to_state lg100 st3 (some (mk_scrape_result badTxt ("sa"))) none
        true false (5 / 10000) ("now")).1 = lg100 ∧
    (apply_result_to_state lg100 st3 (some (mk_scrape_result badTxt ("sa"))) none
        true false (5 / 10000) ("now")).2.fail_count = st3.fail_count ∧
    (apply_result_to_state lg100 st3 (some (mk_scrape_result badTxt ("sa"))) none
        true false (5 / 10000) ("now")).2.error = none ∧
    (apply_result_to_state lg100 st3 (some (mk_scrape_result badTxt ("sa"))) none
        true false (5 / 10000) ("now")).2.stale = false :=
  c5_parse_failure_amended badTxt ("sa") lg100 st3 true false (5 / 10000) ("now")
    (by decide)

/-- Claim C6 counterexample: a successful scrape whose reading 50.0 is
rejected (decrease beyond tolerance, `allow_decrease = false`) still ends
the cycle with `stale = False`, because the success branch sets
`STATE["stale"] = False` unconditionally; the claim requires `stale` to
be true when no new value was accepted. -/
theorem c6_stale_counterexample :
    (update_last_good ⟨some 100, none, none⟩ (some 50) none false (5 / 10000)
        ("n")).2 = false ∧
    (apply_result_to_state ⟨some 100, none, none⟩ initSTATE (some rRej) none true
        false (5 / 10000) ("n")).2.stale = false :=
  ⟨by norm_num [update_last_good], by simp [apply_result_to_state, rRej]⟩

/-- Claim C6 amended: after a cycle, `STATE["stale"]` is false whenever
the scrape itself succeeded (`result["ok"]` true) — even when the reading
was rejected or absent — and true exactly when the cycle failed with an
exception. -/
theorem c6_stale_amended :
    ∀ (lg : LastGood) (st : State) (r : ScrapeResult) (e : String) (k a : Bool)
      (tol : ℚ) (now : String),
      (r.ok = true →
        (apply_result_to_state lg st (some r) none k a tol now).2.stale = false) ∧
      (apply_result_to_state lg st none (some e) k a tol now).2.stale = true := by
  intro lg st r e k a tol now
  constructor
  · intro hok
    simp [apply_result_to_state, hok]
  · simp only [apply_result_to_state]
    split <;> rfl

/-- Witness for the amended C6: a rejected-success cycle ends non-stale,
a failed cycle ends stale. -/
theorem c6_stale_amended_witness :
    (apply_result_to_state ⟨some 100, none, none⟩ initSTATE (some rRej) none true
        false (5 / 10000) ("n")).2.stale = false ∧
    (apply_result_to_state ⟨some 100, none, none⟩ initSTATE none (some ("boom"))
        true false (5 / 10000) ("n")).2.stale = true :=
  ⟨(c6_stale_amended ⟨some 100, none, none⟩ initSTATE rRej ("boom") true false
      (5 / 10000) ("n")).1 rfl,
   (c6_stale_amended ⟨some 100, none, none⟩ initSTATE rRej ("boom") true false
      (5 / 10000) ("n")).2⟩

/-- Claim C7 counterexample: the delay computation has no 24-hour clamp;
with `idle_poll_seconds = 200000`, no failures and a zero jitter draw
(within `randint`'s range `[0, max(0, 15)]`), the returned delay is
200000 seconds, exceeding 86400. -/
theorem c7_clamp_counterexample :
    86400 < compute_sleep_seconds ("idle") 200000 120 30 15 0 0 ∧
    (0 : Int) ≤ 0 ∧ (0 : Int) ≤ max 0 15 := by
  decide

/-- Claim C7 amended: the computed delay is always at least
`min_poll_seconds` (the jitter draw being non-negative), but there is no
upper clamp at 24 hours: the result is the backoff-adjusted base, floored
at `min_poll_seconds`, plus the jitter draw. -/
theorem c7_lower_bound_amended :
    ∀ (mode : String) (idle probe minp jit fail draw : Int),
      0 ≤ draw →
      minp ≤ compute_sleep_seconds mode idle probe minp jit fail draw := by
  intro mode idle probe minp jit fail draw h
  dsimp only [compute_sleep_seconds]
  exact le_trans (le_max_right _ _) (le_add_of_nonneg_right h)

/-- Witness for the amended C7 at a concrete configuration. -/
theorem c7_lower_bound_amended_witness :
    (30 : Int) ≤ compute_sleep_seconds ("idle") 1800 120 30 15 0 5 :=
  c7_lower_bound_amended ("idle") 1800 120 30 15 0 5 (by decide)

/-- Claim C8: with `consecutive_failures = 10`, idle mode and
`idle_poll_seconds = 1800`, the backoff multiplies the base by
`min(4.0, 1 + 0.5*10)` giving 7200, caps it at 900, and — provided
`min_poll_seconds ≤ 900` and the jitter draw lies in `randint`'s range
`[0, jitter_seconds]` — the final delay lies in
`[900, 900 + jitter_seconds]`. -/
theorem c8_backoff_bound :
    ∀ (minp jit draw : Int),
      minp ≤ 900 → 0 ≤ jit → 0 ≤ draw → draw ≤ max 0 jit →
      ratTrunc ((1800 : ℚ) * min 4 (1 + (10 : ℚ) / 2)) = 7200 ∧
      900 ≤ compute_sleep_seconds ("idle") 1800 120 minp jit 10 draw ∧
      compute_sleep_seconds ("idle") 1800 120 minp jit 10 draw ≤ 900 + jit := by
  intro minp jit draw h1 h2 h3 h4
  have h70 : ((1800 : ℚ) * min 4 (1 + (10 : ℚ) / 2)) = 7200 := by norm_num
  have h72 : ratTrunc ((1800 : ℚ) * min 4 (1 + (10 : ℚ) / 2)) = 7200 := by
    rw [h70]; rfl
  have key : compute_sleep_seconds ("idle") 1800 120 minp jit 10 draw =
      max (min (7200 : Int) 900) minp + draw := by
    simp only [compute_sleep_seconds]
    norm_num
    rw [show ratTrunc ((7200 : ℚ)) = (7200 : Int) from rfl]
    omega
  refine ⟨h72, by rw [key]; omega, by rw [key]; omega⟩

/-- Witness for C8 at `min_poll_seconds = 900`, `jitter_seconds = 15` and
a jitter draw of 7. -/
theorem c8_backoff_bound_witness :
    ratTrunc ((1800 : ℚ) * min 4 (1 + (10 : ℚ) / 2)) = 7200 ∧
    900 ≤ compute_sleep_seconds ("idle") 1800 120 900 15 10 7 ∧
    compute_sleep_seconds ("idle") 1800 120 900 15 10 7 ≤ 900 + 15 :=
  c8_backoff_bound 900 15 7 (by decide) (by decide) (by decide) (by decide)

/-- Claim C9 counterexample: two identical successful scrapes whose
`observed_at` is absent both register as a material change: after the
first accepted observation (reading 10), the second identical cycle again
sets `last_change_utc` (from epoch 1 to epoch 2), contradicting the claim
that repeated identical `(reading, observed_at)` pairs — including an
absent `observed_at` — never perturb `last_change_at` after the first
accepted observation. -/
theorem c9_idempotence_counterexample :
    (poll_step s0 cyc1).lg.reading_m3 = some 10 ∧
    (poll_step s0 cyc1).last_change_utc = some 1 ∧
    (poll_step (poll_step s0 cyc1) cyc2).last_change_utc = some 2 := by
  have e1 : poll_step s0 cyc1 =
      ⟨⟨some 10, none, some ("n1")⟩, stA, none, some 1, none⟩ := by
    simp [poll_step, s0, cyc1, r10, apply_result_to_state, update_last_good,
      detect_change, truthyStr, initSTATE, stA]
  refine ⟨by rw [e1], by rw [e1], ?_⟩
  rw [e1]
  norm_num [poll_step, cyc2, r10, apply_result_to_state, update_last_good,
    detect_change, truthyStr, pyOr, stA]
  simp

/-- Claim C9 amended: when the meter-side timestamp is present and already
tracked (`last_seen_read_at = observed_at = LAST_GOOD["read_at_iso"] =
some t`), a successful cycle — whatever its reading, accepted, rejected
or absent — registers no material change and leaves `last_change_utc`,
`probe_started_utc` and `last_seen_read_at` untouched; but when
`observed_at` is absent and `last_seen_read_at` is `None`, every
successful cycle with a present exposed reading re-registers a change
(see the counterexample). -/
theorem c9_idempotence_amended :
    ∀ (lg : LastGood) (st : State) (lc ps : Option ℚ) (r : ScrapeResult)
      (k a : Bool) (tol : ℚ) (ni : String) (ne : ℚ) (t : String),
      r.ok = true → r.read_at_iso = some t → lg.read_at_iso = some t →
      (poll_step ⟨lg, st, some t, lc, ps⟩
          ⟨.ok r, k, a, tol, ni, ne⟩).last_change_utc = lc ∧
      (poll_step ⟨lg, st, some t, lc, ps⟩
          ⟨.ok r, k, a, tol, ni, ne⟩).probe_started_utc = ps ∧
      (poll_step ⟨lg, st, some t, lc, ps⟩
          ⟨.ok r, k, a, tol, ni, ne⟩).last_seen_read_at = some t := by
  intro lg st lc ps r k a tol ni ne t hok hra hlg
  have hread : ((update_last_good lg r.reading_m3 r.read_at_iso a tol
      ni).1).read_at_iso = some t := by
    cases hnr : r.reading_m3 with
    | none => simp [update_last_good, hlg]
    | some v =>
      cases hlgr : lg.reading_m3 with
      | none => simp [update_last_good, hlgr, hra]
      | some old =>
        simp only [update_last_good, hlgr]
        split
        · rw [hra, hlg]
          simp [pyOr]
        · exact hlg
  have happ : ((apply_result_to_state lg st (some r) none k a tol
      ni).2).read_at_iso = some t := by
    simpa [apply_result_to_state, hok] using hread
  have hdet : detect_change (some t)
      ((apply_result_to_state lg st (some r) none k a tol ni).2).read_at_iso
      ((apply_result_to_state lg st (some r) none k a tol ni).2).reading_m3 =
      (false, some t) := by
    rw [happ]
    simp [detect_change]
  simp [poll_step, hdet]

/-- Witness for the amended C9: a repeated identical read with tracked
timestamp `T` leaves `last_change_utc = some 5`, `probe_started_utc =
some 6` and the tracked timestamp unchanged. -/
theorem c9_idempotence_amended_witness :
    (poll_step ⟨⟨some 10, some ("T"), none⟩, initSTATE, some ("T"), some 5, some 6⟩
        ⟨.ok ⟨true, none, some 10, some ("T"), ("sa"), none⟩, true, false, 0,
          ("n"), 9⟩).last_change_utc = some 5 ∧
    (poll_step ⟨⟨some 10, some ("T"), none⟩, initSTATE, some ("T"), some 5, some 6⟩
        ⟨.ok ⟨true, none, some 10, some ("T"), ("sa"), none⟩, true, false, 0,
          ("n"), 9⟩).probe_started_utc = some 6 ∧
    (poll_step ⟨⟨some 10, some ("T"), none⟩, initSTATE, some ("T"), some 5, some 6⟩
        ⟨.ok ⟨true, none, some 10, some ("T"), ("sa"), none⟩, true, false, 0,
          ("n"), 9⟩).last_seen_read_at = some ("T") :=
  c9_idempotence_amended ⟨some 10, some ("T"), none⟩ initSTATE (some 5) (some 6)
    ⟨true, none, some 10, some ("T"), ("sa"), none⟩ true false 0 ("n") 9 ("T")
    rfl rfl rfl

/-- Claim C10: on a `Success`-outcome cycle, `fail_count` is reset to 0
and `last_success_utc` set only when the observation is actually accepted
into `LAST_GOOD`; when the reading is rejected or absent, `fail_count`
and `last_success_utc` keep their previous values while `error` is still
cleared to `None`. -/
theorem c10_fail_count_frame :
    ∀ (lg : LastGood) (st : State) (r : ScrapeResult) (k a : Bool) (tol : ℚ)
      (now : String),
      r.ok = true →
      ((update_last_good lg r.reading_m3 r.read_at_iso a tol now).2 = false →
        (apply_result_to_state lg st (some r) none k a tol now).2.fail_count =
            st.fail_count ∧
        (apply_result_to_state lg st (some r) none k a tol
            now).2.last_success_utc = st.last_success_utc ∧
        (apply_result_to_state lg st (some r) none k a tol now).2.error = none) ∧
      ((update_last_good lg r.reading_m3 r.read_at_iso a tol now).2 = true →
        (apply_result_to_state lg st (some r) none k a tol now).2.fail_count = 0 ∧
        (apply_result_to_state lg st (some r) none k a tol
            now).2.last_success_utc = some now ∧
        (apply_result_to_state lg st (some r) none k a tol now).2.error = none) := by
  intro lg st r k a tol now hok
  constructor <;> intro hupd <;> simp [apply_result_to_state, hok, hupd]

/-- Witness for C10: a rejected reading (50 against stored 100) leaves
`fail_count = 3` and `last_success_utc` untouched while clearing the
error. -/
theorem c10_fail_count_frame_witness :
    (apply_result_to_state ⟨some 100, none, none⟩ st3 (some rRej) none true false
        (5 / 10000) ("n")).2.fail_count = st3.fail_count ∧
    (apply_result_to_state ⟨some 100, none, none⟩ st3 (some rRej) none true false
        (5 / 10000) ("n")).2.last_success_utc = st3.last_success_utc ∧
    (apply_result_to_state ⟨some 100, none, none⟩ st3 (some rRej) none true false
        (5 / 10000) ("n")).2.error = none :=
  (c10_fail_count_frame ⟨some 100, none, none⟩ st3 rRej true false (5 / 10000)
      ("n") rfl).1 (by norm_num [update_last_good, rRej])

end MinVand
